import Mathlib

/-!
# Verification of the AUTOSAR SPI Handler/Driver (Spi.c / Spi.h / Spi_Cfg.h)

Shallow embedding of the SPI driver's status-tracking and sequence-scheduling
logic.  The driver keeps three global status arrays:

* `Spi_Status`          : one `Spi_StatusType` per channel (`SPI_MAX_CHANNEL = 2`),
* `Spi_SequenceStatus`  : one `Spi_SeqResultType` per sequence (`SPI_MAX_SEQUENCE = 2`),
* `Spi_JobStatus`       : one `Spi_JobResultType` per job (`SPI_MAX_JOB = 2`),

which we collect in `SpiState` (lists of the corresponding fixed lengths).
Hardware interaction is abstracted exactly at the points the C code reads the
RXNE (receive-ready) flag: a transmit run consumes a trace `f : Nat → Bool`
giving the RXNE reading observed right after the `pos`-th byte exchange of the
run.  The busy-wait loops on TXE/BSY do not influence any driver state and are
elided (they terminate whenever the run proceeds at all).
-/

/-- `Std_ReturnType` from Std_Types.h: `E_OK = 0x00`, `E_NOT_OK = 0x01`. -/
inductive Std_ReturnType where
  | E_OK
  | E_NOT_OK
deriving DecidableEq, Repr

export Std_ReturnType (E_OK E_NOT_OK)

/-- `Spi_StatusType` from Spi.h: module/channel status. -/
inductive Spi_StatusType where
  | SPI_UNINIT
  | SPI_IDLE
  | SPI_BUSY
deriving DecidableEq, Repr

export Spi_StatusType (SPI_UNINIT SPI_IDLE SPI_BUSY)

/-- `Spi_JobResultType` from Spi.h. -/
inductive Spi_JobResultType where
  | SPI_JOB_OK
  | SPI_JOB_PENDING
  | SPI_JOB_FAILED
  | SPI_JOB_QUEUED
deriving DecidableEq, Repr

export Spi_JobResultType (SPI_JOB_OK SPI_JOB_PENDING SPI_JOB_FAILED SPI_JOB_QUEUED)

/-- `Spi_SeqResultType` from Spi.h. -/
inductive Spi_SeqResultType where
  | SPI_SEQ_OK
  | SPI_SEQ_PENDING
  | SPI_SEQ_FAILED
  | SPI_SEQ_CANCELED
deriving DecidableEq, Repr

export Spi_SeqResultType (SPI_SEQ_OK SPI_SEQ_PENDING SPI_SEQ_FAILED SPI_SEQ_CANCELED)

/-- `#define SPI_MAX_CHANNEL 2` -/
def SPI_MAX_CHANNEL : Nat := 2

/-- `#define SPI_CHANNEL_1 0` -/
def SPI_CHANNEL_1 : Nat := 0

/-- `#define SPI_CHANNEL_2 1` -/
def SPI_CHANNEL_2 : Nat := 1

/-- `#define SPI_MAX_SEQUENCE 2` -/
def SPI_MAX_SEQUENCE : Nat := 2

/-- `#define SPI_MAX_JOB 2` -/
def SPI_MAX_JOB : Nat := 2

/-- Job configuration structure from Spi_Cfg.h: a channel and a data buffer.
The buffer holds the single byte the job transmits. -/
structure Spi_JobConfigType where
  Channel : Nat
  DataBuffer : Nat
deriving DecidableEq, Repr

/-- Sequence configuration structure from Spi_Cfg.h: a fixed array
`Jobs[SPI_MAX_JOB]` of job identifiers plus the number `JobCount` of entries
actually used. -/
structure Spi_SequenceConfigType where
  Jobs : List Nat
  JobCount : Nat
deriving DecidableEq, Repr

/-- Job configuration table from Spi_Cfg.h:
Job 0 on `SPI_CHANNEL_1` with `transmitDataBuffer_1 = {0xA5}`,
Job 1 on `SPI_CHANNEL_2` with `transmitDataBuffer_2 = {0x10}`. -/
def Spi_Jobs : List Spi_JobConfigType :=
  [⟨SPI_CHANNEL_1, 0xA5⟩, ⟨SPI_CHANNEL_2, 0x10⟩]

/-- Sequence configuration table from Spi_Cfg.h.  Only element 0 is given an
initializer (`{.Jobs = {0, 1}, .JobCount = 2}`); element 1 of the
`const` array of size `SPI_MAX_SEQUENCE` is zero-initialized, i.e.
`Jobs = {0, 0}`, `JobCount = 0`. -/
def Spi_Sequences : List Spi_SequenceConfigType :=
  [⟨[0, 1], 2⟩, ⟨[0, 0], 0⟩]

/-- The mutable driver state: the three static status arrays of Spi.c. -/
structure SpiState where
  chStatus : List Spi_StatusType
  seqStatus : List Spi_SeqResultType
  jobStatus : List Spi_JobResultType
deriving DecidableEq, Repr

/-- Well-formed states have the arrays at their declared C sizes. -/
def SpiState.WF (s : SpiState) : Prop :=
  s.chStatus.length = SPI_MAX_CHANNEL ∧
  s.seqStatus.length = SPI_MAX_SEQUENCE ∧
  s.jobStatus.length = SPI_MAX_JOB

instance (s : SpiState) : Decidable s.WF := by
  unfold SpiState.WF; infer_instance

/-- The initial values of the three status arrays:
`Spi_Status = {SPI_UNINIT, SPI_UNINIT}`,
`Spi_SequenceStatus = {SPI_SEQ_PENDING, SPI_SEQ_PENDING}`,
`Spi_JobStatus = {SPI_JOB_PENDING, SPI_JOB_PENDING}`. -/
def initState : SpiState :=
  ⟨[SPI_UNINIT, SPI_UNINIT],
   [SPI_SEQ_PENDING, SPI_SEQ_PENDING],
   [SPI_JOB_PENDING, SPI_JOB_PENDING]⟩

/-- Reading `Spi_Status[i]` (in-bounds in all uses). -/
def SpiState.ch (s : SpiState) (i : Nat) : Spi_StatusType :=
  s.chStatus.getD i SPI_UNINIT

/-- Reading `Spi_SequenceStatus[i]` (in-bounds in all uses). -/
def SpiState.seq (s : SpiState) (i : Nat) : Spi_SeqResultType :=
  s.seqStatus.getD i SPI_SEQ_FAILED

/-- Reading `Spi_JobStatus[i]` (in-bounds in all uses). -/
def SpiState.job (s : SpiState) (i : Nat) : Spi_JobResultType :=
  s.jobStatus.getD i SPI_JOB_FAILED

/-- The channel a job is configured to run on: `Spi_Jobs[Job].Channel`
(in-bounds in all uses; the default is an invalid channel). -/
def jobChannel (Job : Nat) : Nat :=
  (Spi_Jobs.getD Job ⟨SPI_MAX_CHANNEL, 0⟩).Channel

/-- One iteration of the job loop shared by `Spi_SyncTransmit` and
`Spi_AsyncTransmit` (Spi.c): set the current job's status to
`SPI_JOB_PENDING`, dispatch on the job's configured channel, perform the byte
exchange and test RXNE (`rxne` is the flag reading for this exchange).  On a
ready receive the job becomes `SPI_JOB_OK` and the result is `true`
(continue); otherwise — RXNE clear, or channel not one of `SPI_CHANNEL_1` /
`SPI_CHANNEL_2` — the job becomes `SPI_JOB_FAILED`, the sequence becomes
`SPI_SEQ_FAILED`, and the result is `false` (abort with `E_NOT_OK`). -/
def Spi_JobStep (rxne : Bool) (Sequence currentJob : Nat) (s : SpiState) :
    Bool × SpiState :=
  let channel := jobChannel currentJob
  let s1 : SpiState := { s with jobStatus := s.jobStatus.set currentJob SPI_JOB_PENDING }
  if channel = SPI_CHANNEL_1 then
    if rxne then
      (true, { s1 with jobStatus := s1.jobStatus.set currentJob SPI_JOB_OK })
    else
      (false, { s1 with jobStatus := s1.jobStatus.set currentJob SPI_JOB_FAILED,
                        seqStatus := s1.seqStatus.set Sequence SPI_SEQ_FAILED })
  else if channel = SPI_CHANNEL_2 then
    if rxne then
      (true, { s1 with jobStatus := s1.jobStatus.set currentJob SPI_JOB_OK })
    else
      (false, { s1 with jobStatus := s1.jobStatus.set currentJob SPI_JOB_FAILED,
                        seqStatus := s1.seqStatus.set Sequence SPI_SEQ_FAILED })
  else
    (false, { s1 with jobStatus := s1.jobStatus.set currentJob SPI_JOB_FAILED,
                      seqStatus := s1.seqStatus.set Sequence SPI_SEQ_FAILED })

/-- The `for (jobIndex = 0; jobIndex < JobCount; jobIndex++)` loop of
`Spi_SyncTransmit` / `Spi_AsyncTransmit`, over the list of jobs still to run;
`pos` is the index of the next byte exchange in the flag trace `f`.  When the
loop completes, the sequence status is set to `SPI_SEQ_OK` and `E_OK` is
returned. -/
def Spi_TransmitLoop (f : Nat → Bool) (Sequence : Nat) :
    List Nat → Nat → SpiState → Std_ReturnType × SpiState
  | [], _, s =>
      (E_OK, { s with seqStatus := s.seqStatus.set Sequence SPI_SEQ_OK })
  | currentJob :: rest, pos, s =>
      let r := Spi_JobStep (f pos) Sequence currentJob s
      if r.1 then Spi_TransmitLoop f Sequence rest (pos + 1) r.2
      else (E_NOT_OK, r.2)

/-- The list of jobs a sequence identifier runs: the first `JobCount` entries
of its configured `Jobs` array. -/
def seqJobList (Sequence : Nat) : List Nat :=
  let cfg := Spi_Sequences.getD Sequence ⟨[], 0⟩
  cfg.Jobs.take cfg.JobCount

/-- `Spi_SyncTransmit` from Spi.c: guard on an entirely-uninitialized module
(`Spi_Status[0] == SPI_UNINIT && Spi_Status[1] == SPI_UNINIT`) and on
`Sequence >= SPI_MAX_CHANNEL` (the code checks against `SPI_MAX_CHANNEL`,
whose value equals `SPI_MAX_SEQUENCE`); then set the sequence status to
`SPI_SEQ_PENDING` and run the job loop. -/
def Spi_SyncTransmit (f : Nat → Bool) (Sequence : Nat) (s : SpiState) :
    Std_ReturnType × SpiState :=
  if s.ch 0 = SPI_UNINIT ∧ s.ch 1 = SPI_UNINIT then
    (E_NOT_OK, s)
  else if SPI_MAX_CHANNEL ≤ Sequence then
    (E_NOT_OK, s)
  else
    let s0 : SpiState := { s with seqStatus := s.seqStatus.set Sequence SPI_SEQ_PENDING }
    Spi_TransmitLoop f Sequence (seqJobList Sequence) 0 s0

/-- `Spi_AsyncTransmit` from Spi.c.  Its body is the same statement-for-
statement algorithm as `Spi_SyncTransmit`: the same two guards, the same
`SPI_SEQ_PENDING` write, and the same blocking per-job loop. -/
def Spi_AsyncTransmit (f : Nat → Bool) (Sequence : Nat) (s : SpiState) :
    Std_ReturnType × SpiState :=
  if s.ch 0 = SPI_UNINIT ∧ s.ch 1 = SPI_UNINIT then
    (E_NOT_OK, s)
  else if SPI_MAX_CHANNEL ≤ Sequence then
    (E_NOT_OK, s)
  else
    let s0 : SpiState := { s with seqStatus := s.seqStatus.set Sequence SPI_SEQ_PENDING }
    Spi_TransmitLoop f Sequence (seqJobList Sequence) 0 s0

/-- `Spi_GetStatus` from Spi.c: first loop returns `SPI_BUSY` if any channel
status is `SPI_BUSY`; second loop returns `SPI_IDLE` if any channel status is
not `SPI_UNINIT`; otherwise `SPI_UNINIT`. -/
def Spi_GetStatus (s : SpiState) : Spi_StatusType :=
  if s.chStatus.any (fun c => c = SPI_BUSY) then SPI_BUSY
  else if s.chStatus.any (fun c => ¬ c = SPI_UNINIT) then SPI_IDLE
  else SPI_UNINIT

/-- `Spi_GetJobResult` from Spi.c: `SPI_JOB_FAILED` for `Job >= SPI_MAX_JOB`,
otherwise `Spi_JobStatus[Job]`. -/
def Spi_GetJobResult (s : SpiState) (Job : Nat) : Spi_JobResultType :=
  if SPI_MAX_JOB ≤ Job then SPI_JOB_FAILED
  else s.job Job

/-- `Spi_GetSequenceResult` from Spi.c: `SPI_SEQ_FAILED` for
`Sequence >= SPI_MAX_SEQUENCE`, otherwise `Spi_SequenceStatus[Sequence]`. -/
def Spi_GetSequenceResult (s : SpiState) (Sequence : Nat) : Spi_SeqResultType :=
  if SPI_MAX_SEQUENCE ≤ Sequence then SPI_SEQ_FAILED
  else s.seq Sequence

/-- The fields of `Spi_ConfigType` relevant to the driver's status state.
The remaining fields (BaudRate, CPOL, CPHA, Mode, NSS, DataSize, Direction)
are forwarded verbatim to the hardware `SPI_Init`/GPIO configuration in
`Spi_Init` and never influence the status arrays, so they are not modelled. -/
structure Spi_ConfigType where
  Channel : Nat
deriving DecidableEq, Repr

/-- `Spi_Init` from Spi.c, restricted to its effect on the status arrays:
a null `ConfigPtr` (`none`) returns without action; `Channel ==
SPI_CHANNEL_1` sets `Spi_Status[SPI_CHANNEL_1] = SPI_IDLE`; `Channel ==
SPI_CHANNEL_2` sets `Spi_Status[SPI_CHANNEL_2] = SPI_IDLE`; any other
channel returns without touching the arrays.  All other statements configure
hardware registers only. -/
def Spi_Init (ConfigPtr : Option Spi_ConfigType) (s : SpiState) : SpiState :=
  match ConfigPtr with
  | none => s
  | some cfg =>
      if cfg.Channel = SPI_CHANNEL_1 then
        { s with chStatus := s.chStatus.set SPI_CHANNEL_1 SPI_IDLE }
      else if cfg.Channel = SPI_CHANNEL_2 then
        { s with chStatus := s.chStatus.set SPI_CHANNEL_2 SPI_IDLE }
      else s

/-- `Spi_DeInit` from Spi.c: sets both channel statuses to `SPI_UNINIT`;
the return value depends on the hardware check that both SPI peripherals'
enable bits (`SPI_CR1_SPE`) read back as cleared, which we abstract as the
two booleans `spe1Clear`, `spe2Clear`. -/
def Spi_DeInit (spe1Clear spe2Clear : Bool) (s : SpiState) :
    Std_ReturnType × SpiState :=
  let s1 : SpiState :=
    { s with chStatus := (s.chStatus.set SPI_CHANNEL_1 SPI_UNINIT).set SPI_CHANNEL_2 SPI_UNINIT }
  if spe1Clear ∧ spe2Clear then (E_OK, s1) else (E_NOT_OK, s1)

/-- `Spi_WriteIB` from Spi.c, restricted to its effect on the status arrays:
it validates its pointer and channel, busy-waits on hardware flags and writes
the byte to the hardware data register, but never touches the status arrays.
`DataBufferPtr` is `none` for a null pointer. -/
def Spi_WriteIB (Channel : Nat) (DataBufferPtr : Option Nat) (s : SpiState) :
    Std_ReturnType × SpiState :=
  match DataBufferPtr with
  | none => (E_NOT_OK, s)
  | some _ =>
      if Channel = SPI_CHANNEL_1 then (E_OK, s)
      else if Channel = SPI_CHANNEL_2 then (E_OK, s)
      else (E_NOT_OK, s)

/-- `Spi_ReadIB` from Spi.c, restricted to its effect on the status arrays:
it validates its pointer and channel and reads the hardware data register
into the caller's buffer, but never touches the status arrays.  `bufValid`
is false for a null `DataBufferPointer`. -/
def Spi_ReadIB (Channel : Nat) (bufValid : Bool) (s : SpiState) :
    Std_ReturnType × SpiState :=
  if ¬ bufValid then (E_NOT_OK, s)
  else if Channel = SPI_CHANNEL_1 then (E_OK, s)
  else if Channel = SPI_CHANNEL_2 then (E_OK, s)
  else (E_NOT_OK, s)

/-- `Std_VersionInfoType` from Std_Types.h (the fields `Spi_GetVersionInfo`
populates). -/
structure Std_VersionInfoType where
  vendorID : Nat
  moduleID : Nat
  sw_major_version : Nat
  sw_minor_version : Nat
  sw_patch_version : Nat
deriving DecidableEq, Repr

/-- `Spi_GetVersionInfo` from Spi.c: with a non-null pointer it fills in the
constants `SPI_VENDOR_ID = 1810`, `SPI_MODULE_ID = 83`, version 1.0.0; it
reads and writes no driver state. -/
def Spi_GetVersionInfo : Std_VersionInfoType :=
  ⟨1810, 83, 1, 0, 0⟩

/-- One call to an implemented public operation of the driver, with all of
its inputs: configuration pointers, hardware flag readings (`SPI_CR1_SPE`
read-backs for `Spi_DeInit`, the RXNE trace for the transmit calls), and
identifier arguments. -/
inductive SpiOp where
  | opInit (ConfigPtr : Option Spi_ConfigType)
  | opDeInit (spe1Clear spe2Clear : Bool)
  | opWriteIB (Channel : Nat) (DataBufferPtr : Option Nat)
  | opReadIB (Channel : Nat) (bufValid : Bool)
  | opSyncTransmit (f : Nat → Bool) (Sequence : Nat)
  | opAsyncTransmit (f : Nat → Bool) (Sequence : Nat)
  | opGetStatus
  | opGetJobResult (Job : Nat)
  | opGetSequenceResult (Sequence : Nat)
  | opGetVersionInfo

/-- The state transformation performed by one public-operation call.  The
query operations (`Spi_GetStatus`, `Spi_GetJobResult`,
`Spi_GetSequenceResult`, `Spi_GetVersionInfo`) only read state. -/
def SpiOp.apply : SpiOp → SpiState → SpiState
  | .opInit cfg, s => Spi_Init cfg s
  | .opDeInit h1 h2, s => (Spi_DeInit h1 h2 s).2
  | .opWriteIB ch buf, s => (Spi_WriteIB ch buf s).2
  | .opReadIB ch b, s => (Spi_ReadIB ch b s).2
  | .opSyncTransmit f q, s => (Spi_SyncTransmit f q s).2
  | .opAsyncTransmit f q, s => (Spi_AsyncTransmit f q s).2
  | .opGetStatus, s => s
  | .opGetJobResult _, s => s
  | .opGetSequenceResult _, s => s
  | .opGetVersionInfo, s => s

/-- States reachable from the initial state by finite sequences of
public-operation calls. -/
inductive Reachable : SpiState → Prop where
  | init : Reachable initState
  | step : ∀ {s : SpiState} (op : SpiOp), Reachable s → Reachable (op.apply s)

/-- A well-formed state is a triple of explicit two-element arrays. -/
lemma SpiState.WF.destruct {s : SpiState} (h : s.WF) :
    ∃ c0 c1 q0 q1 j0 j1,
      s = ⟨[c0, c1], [q0, q1], [j0, j1]⟩ := by
  obtain ⟨hc, hq, hj⟩ := h
  obtain ⟨c0, c1, hc⟩ := List.length_eq_two.mp hc
  obtain ⟨q0, q1, hq⟩ := List.length_eq_two.mp hq
  obtain ⟨j0, j1, hj⟩ := List.length_eq_two.mp hj
  exact ⟨c0, c1, q0, q1, j0, j1, by cases s; simp_all⟩

/-- The bodies of `Spi_AsyncTransmit` and `Spi_SyncTransmit` are the same
function of the inputs. -/
lemma asyncTransmit_eq_syncTransmit (f : Nat → Bool) (Sequence : Nat)
    (s : SpiState) : Spi_AsyncTransmit f Sequence s = Spi_SyncTransmit f Sequence s := rfl

/-- Claim C4: for every Sequence identifier, every starting state of the
Channel/Job/Sequence status arrays, and every trace of hardware flag
readings, `Spi_AsyncTransmit` and `Spi_SyncTransmit` are extensionally
equal: same `Std_ReturnType` result and identical final status arrays. -/
theorem spi_asyncTransmit_extEq_syncTransmit (f : Nat → Bool) (Sequence : Nat)
    (s : SpiState) :
    Spi_AsyncTransmit f Sequence s = Spi_SyncTransmit f Sequence s :=
  asyncTransmit_eq_syncTransmit f Sequence s

/-- Claim C5: for every configuration of the channel status cells,
`Spi_GetStatus` returns `SPI_BUSY` if any channel is `SPI_BUSY`; otherwise
`SPI_IDLE` if at least one channel is not `SPI_UNINIT`; otherwise
`SPI_UNINIT` — a single busy channel dominates. -/
theorem spi_getStatus_precedence (c0 c1 : Spi_StatusType)
    (qs : List Spi_SeqResultType) (js : List Spi_JobResultType) :
    ((c0 = SPI_BUSY ∨ c1 = SPI_BUSY) →
      Spi_GetStatus ⟨[c0, c1], qs, js⟩ = SPI_BUSY) ∧
    (¬ (c0 = SPI_BUSY ∨ c1 = SPI_BUSY) → ¬ (c0 = SPI_UNINIT ∧ c1 = SPI_UNINIT) →
      Spi_GetStatus ⟨[c0, c1], qs, js⟩ = SPI_IDLE) ∧
    ((c0 = SPI_UNINIT ∧ c1 = SPI_UNINIT) →
      Spi_GetStatus ⟨[c0, c1], qs, js⟩ = SPI_UNINIT) := by
  cases c0 <;> cases c1 <;> simp [Spi_GetStatus]

/-- Witness for C5 at channels {Idle, Busy}: the module reports `SPI_BUSY`. -/
theorem spi_getStatus_precedence_witness :
    Spi_GetStatus ⟨[SPI_IDLE, SPI_BUSY], [], []⟩ = SPI_BUSY :=
  (spi_getStatus_precedence SPI_IDLE SPI_BUSY [] []).1 (Or.inr rfl)

/-- Claim C6: for every identifier at or above the configured maximum,
`Spi_GetJobResult` returns `SPI_JOB_FAILED` and `Spi_GetSequenceResult`
returns `SPI_SEQ_FAILED`.  Both are pure queries of the state: in this
embedding they return only a result and leave the state untouched, and the
bounds check keeps the in-range branch inside the status arrays. -/
theorem spi_getResult_out_of_range (s : SpiState) (Job Sequence : Nat)
    (hj : SPI_MAX_JOB ≤ Job) (hq : SPI_MAX_SEQUENCE ≤ Sequence) :
    Spi_GetJobResult s Job = SPI_JOB_FAILED ∧
    Spi_GetSequenceResult s Sequence = SPI_SEQ_FAILED := by
  constructor <;> simp [Spi_GetJobResult, Spi_GetSequenceResult, hj, hq]

/-- Witness for C6 at identifiers 2 and 7 in the initial state. -/
theorem spi_getResult_out_of_range_witness :
    Spi_GetJobResult initState 2 = SPI_JOB_FAILED ∧
    Spi_GetSequenceResult initState 7 = SPI_SEQ_FAILED :=
  spi_getResult_out_of_range initState 2 7 (by decide) (by decide)

/-- Claim C10: in the initial state, every in-range job query returns
`SPI_JOB_PENDING` and every in-range sequence query returns
`SPI_SEQ_PENDING`. -/
theorem spi_initial_results_pending (Job Sequence : Nat)
    (hj : Job < SPI_MAX_JOB) (hq : Sequence < SPI_MAX_SEQUENCE) :
    Spi_GetJobResult initState Job = SPI_JOB_PENDING ∧
    Spi_GetSequenceResult initState Sequence = SPI_SEQ_PENDING := by
  have hj2 : Job < 2 := hj
  have hq2 : Sequence < 2 := hq
  interval_cases Job <;> interval_cases Sequence <;> exact ⟨by decide, by decide⟩

/-- Witness for C10 at job 0 and sequence 1. -/
theorem spi_initial_results_pending_witness :
    Spi_GetJobResult initState 0 = SPI_JOB_PENDING ∧
    Spi_GetSequenceResult initState 1 = SPI_SEQ_PENDING :=
  spi_initial_results_pending 0 1 (by decide) (by decide)

/-- Claim C3: if every channel's status is `SPI_UNINIT`, or the sequence
identifier is at or above the configured range, both transmit calls return
`E_NOT_OK` and leave the whole state (every Channel, Job, and Sequence
status cell) unchanged. -/
theorem spi_transmit_guard_no_mutation (f : Nat → Bool) (Sequence : Nat)
    (s : SpiState)
    (h : (s.ch 0 = SPI_UNINIT ∧ s.ch 1 = SPI_UNINIT) ∨ SPI_MAX_SEQUENCE ≤ Sequence) :
    Spi_SyncTransmit f Sequence s = (E_NOT_OK, s) ∧
    Spi_AsyncTransmit f Sequence s = (E_NOT_OK, s) := by
  have hsync : Spi_SyncTransmit f Sequence s = (E_NOT_OK, s) := by
    unfold Spi_SyncTransmit
    rcases h with h | h
    · rw [if_pos h]
    · by_cases h0 : s.ch 0 = SPI_UNINIT ∧ s.ch 1 = SPI_UNINIT
      · rw [if_pos h0]
      · have h' : SPI_MAX_CHANNEL ≤ Sequence := h
        rw [if_neg h0, if_pos h']
  exact ⟨hsync, (asyncTransmit_eq_syncTransmit f Sequence s).trans hsync⟩

/-- Witness for C3: a run from the uninitialized initial state. -/
theorem spi_transmit_guard_no_mutation_witness :
    Spi_SyncTransmit (fun _ => true) 0 initState = (E_NOT_OK, initState) ∧
    Spi_AsyncTransmit (fun _ => true) 0 initState = (E_NOT_OK, initState) :=
  spi_transmit_guard_no_mutation (fun _ => true) 0 initState (Or.inl ⟨rfl, rfl⟩)

/-- Claim C9: Sequence 1 is configured with `JobCount = 0` (only element 0
of `Spi_Sequences` has an initializer), so with at least one channel
initialized, `Spi_SyncTransmit 1` and `Spi_AsyncTransmit 1` skip the job
loop: both return `E_OK`, set `SequenceResult(1)` to `SPI_SEQ_OK`, and
leave every Job status cell unchanged. -/
theorem spi_transmit_empty_sequence (f : Nat → Bool) (s : SpiState)
    (hWF : s.WF)
    (hinit : ¬ (s.ch 0 = SPI_UNINIT ∧ s.ch 1 = SPI_UNINIT)) :
    (Spi_SyncTransmit f 1 s).1 = E_OK ∧
    (Spi_SyncTransmit f 1 s).2.seq 1 = SPI_SEQ_OK ∧
    (Spi_SyncTransmit f 1 s).2.jobStatus = s.jobStatus ∧
    (Spi_AsyncTransmit f 1 s).1 = E_OK ∧
    (Spi_AsyncTransmit f 1 s).2.seq 1 = SPI_SEQ_OK ∧
    (Spi_AsyncTransmit f 1 s).2.jobStatus = s.jobStatus := by
  obtain ⟨c0, c1, q0, q1, j0, j1, rfl⟩ := hWF.destruct
  simp only [SpiState.ch, List.getD_cons_zero, List.getD_cons_succ] at hinit
  rw [asyncTransmit_eq_syncTransmit]
  have hrun : Spi_SyncTransmit f 1 ⟨[c0, c1], [q0, q1], [j0, j1]⟩ =
      (E_OK, ⟨[c0, c1], [q0, SPI_SEQ_OK], [j0, j1]⟩) := by
    unfold Spi_SyncTransmit
    simp only [SpiState.ch, List.getD_cons_zero, List.getD_cons_succ]
    rw [if_neg hinit]
    rfl
  rw [hrun]
  exact ⟨rfl, rfl, rfl, rfl, rfl, rfl⟩

/-- Witness for C9 from a state with channel 0 initialized. -/
theorem spi_transmit_empty_sequence_witness :
    (Spi_SyncTransmit (fun _ => true) 1
      ⟨[SPI_IDLE, SPI_UNINIT], [SPI_SEQ_PENDING, SPI_SEQ_PENDING],
       [SPI_JOB_PENDING, SPI_JOB_PENDING]⟩).1 = E_OK :=
  (spi_transmit_empty_sequence (fun _ => true)
    ⟨[SPI_IDLE, SPI_UNINIT], [SPI_SEQ_PENDING, SPI_SEQ_PENDING],
     [SPI_JOB_PENDING, SPI_JOB_PENDING]⟩ (by decide) (by decide)).1

/-- Claim C1: for every configured sequence (identifier below
`SPI_MAX_SEQUENCE`) and every run of `Spi_SyncTransmit` from a state with at
least one initialized channel in which every byte exchange reports
receive-ready, the call returns `E_OK`, the sequence's status cell ends as
`SPI_SEQ_OK`, and every job in the sequence's configured job list ends as
`SPI_JOB_OK`. -/
theorem spi_syncTransmit_all_ok (f : Nat → Bool) (Sequence : Nat)
    (s : SpiState) (hWF : s.WF) (hq : Sequence < SPI_MAX_SEQUENCE)
    (hinit : ¬ (s.ch 0 = SPI_UNINIT ∧ s.ch 1 = SPI_UNINIT))
    (hf : ∀ i, i < (seqJobList Sequence).length → f i = true) :
    (Spi_SyncTransmit f Sequence s).1 = E_OK ∧
    (Spi_SyncTransmit f Sequence s).2.seq Sequence = SPI_SEQ_OK ∧
    ∀ j ∈ seqJobList Sequence, (Spi_SyncTransmit f Sequence s).2.job j = SPI_JOB_OK := by
  obtain ⟨c0, c1, q0, q1, j0, j1, rfl⟩ := hWF.destruct
  simp only [SpiState.ch, List.getD_cons_zero, List.getD_cons_succ] at hinit
  have hq2 : Sequence < 2 := hq
  interval_cases Sequence
  · have hrun : Spi_SyncTransmit f 0 ⟨[c0, c1], [q0, q1], [j0, j1]⟩ =
        (E_OK, ⟨[c0, c1], [SPI_SEQ_OK, q1], [SPI_JOB_OK, SPI_JOB_OK]⟩) := by
      unfold Spi_SyncTransmit
      simp only [SpiState.ch, List.getD_cons_zero, List.getD_cons_succ]
      rw [if_neg hinit]
      have h0 := hf 0 (by simp [seqJobList, Spi_Sequences])
      have h1 := hf 1 (by simp [seqJobList, Spi_Sequences])
      simp [Spi_TransmitLoop, Spi_JobStep, seqJobList, Spi_Sequences, Spi_Jobs,
        jobChannel, h0, h1, SPI_MAX_CHANNEL, SPI_CHANNEL_1, SPI_CHANNEL_2]
    rw [hrun]
    refine ⟨rfl, rfl, ?_⟩
    intro j hj
    have hj2 : j = 0 ∨ j = 1 := by
      simpa [seqJobList, Spi_Sequences] using hj
    rcases hj2 with rfl | rfl <;> rfl
  · have hrun : Spi_SyncTransmit f 1 ⟨[c0, c1], [q0, q1], [j0, j1]⟩ =
        (E_OK, ⟨[c0, c1], [q0, SPI_SEQ_OK], [j0, j1]⟩) := by
      unfold Spi_SyncTransmit
      simp only [SpiState.ch, List.getD_cons_zero, List.getD_cons_succ]
      rw [if_neg hinit]
      rfl
    rw [hrun]
    refine ⟨rfl, rfl, ?_⟩
    intro j hj
    simp [seqJobList, Spi_Sequences] at hj

/-- Witness for C1: sequence 0 from a state with channel 0 initialized and
an always-ready receive flag returns `E_OK`. -/
theorem spi_syncTransmit_all_ok_witness :
    (Spi_SyncTransmit (fun _ => true) 0
      ⟨[SPI_IDLE, SPI_UNINIT], [SPI_SEQ_PENDING, SPI_SEQ_PENDING],
       [SPI_JOB_PENDING, SPI_JOB_PENDING]⟩).1 = E_OK :=
  (spi_syncTransmit_all_ok (fun _ => true) 0
    ⟨[SPI_IDLE, SPI_UNINIT], [SPI_SEQ_PENDING, SPI_SEQ_PENDING],
     [SPI_JOB_PENDING, SPI_JOB_PENDING]⟩
    (by decide) (by decide) (by decide) (fun _ _ => rfl)).1

/-- Claim C2: for every configured sequence and every run of
`Spi_SyncTransmit` in which the jobs at positions `0..k-1` succeed and the
job at position `k` fails — its exchange's receive-ready flag is clear, or
its channel is not one of the configured channels — the call returns
`E_NOT_OK`, that job's status cell is `SPI_JOB_FAILED`, the sequence's
status cell is `SPI_SEQ_FAILED`, and the status cells of the jobs at the
later positions are unchanged from before the run (those jobs are never
attempted). -/
theorem spi_syncTransmit_fail_fast (f : Nat → Bool) (Sequence k : Nat)
    (s : SpiState) (hWF : s.WF) (hq : Sequence < SPI_MAX_SEQUENCE)
    (hinit : ¬ (s.ch 0 = SPI_UNINIT ∧ s.ch 1 = SPI_UNINIT))
    (hk : k < (seqJobList Sequence).length)
    (hsucc : ∀ i, i < k → f i = true)
    (hfail : f k = false ∨
      ¬ (jobChannel ((seqJobList Sequence).getD k 0) = SPI_CHANNEL_1 ∨
         jobChannel ((seqJobList Sequence).getD k 0) = SPI_CHANNEL_2)) :
    (Spi_SyncTransmit f Sequence s).1 = E_NOT_OK ∧
    (Spi_SyncTransmit f Sequence s).2.job ((seqJobList Sequence).getD k 0) = SPI_JOB_FAILED ∧
    (Spi_SyncTransmit f Sequence s).2.seq Sequence = SPI_SEQ_FAILED ∧
    ∀ p, k < p → p < (seqJobList Sequence).length →
      (Spi_SyncTransmit f Sequence s).2.job ((seqJobList Sequence).getD p 0) =
        s.job ((seqJobList Sequence).getD p 0) := by
  obtain ⟨c0, c1, q0, q1, j0, j1, rfl⟩ := hWF.destruct
  simp only [SpiState.ch, List.getD_cons_zero, List.getD_cons_succ] at hinit
  have hq2 : Sequence < 2 := hq
  interval_cases Sequence
  · have hk2 : k < 2 := by simpa [seqJobList, Spi_Sequences] using hk
    interval_cases k
    · have hf0 : f 0 = false := by
        rcases hfail with h | h
        · exact h
        · exact absurd (Or.inl (by decide)) h
      have hrun : Spi_SyncTransmit f 0 ⟨[c0, c1], [q0, q1], [j0, j1]⟩ =
          (E_NOT_OK, ⟨[c0, c1], [SPI_SEQ_FAILED, q1], [SPI_JOB_FAILED, j1]⟩) := by
        unfold Spi_SyncTransmit
        simp only [SpiState.ch, List.getD_cons_zero, List.getD_cons_succ]
        rw [if_neg hinit]
        simp [Spi_TransmitLoop, Spi_JobStep, seqJobList, Spi_Sequences, Spi_Jobs,
          jobChannel, hf0, SPI_MAX_CHANNEL, SPI_CHANNEL_1, SPI_CHANNEL_2]
      rw [hrun]
      refine ⟨rfl, rfl, rfl, ?_⟩
      intro p hp1 hp2
      have hp3 : p < 2 := by simpa [seqJobList, Spi_Sequences] using hp2
      interval_cases p
      rfl
    · have h0 : f 0 = true := hsucc 0 (by decide)
      have hf1 : f 1 = false := by
        rcases hfail with h | h
        · exact h
        · exact absurd (Or.inr (by decide)) h
      have hrun : Spi_SyncTransmit f 0 ⟨[c0, c1], [q0, q1], [j0, j1]⟩ =
          (E_NOT_OK, ⟨[c0, c1], [SPI_SEQ_FAILED, q1], [SPI_JOB_OK, SPI_JOB_FAILED]⟩) := by
        unfold Spi_SyncTransmit
        simp only [SpiState.ch, List.getD_cons_zero, List.getD_cons_succ]
        rw [if_neg hinit]
        simp [Spi_TransmitLoop, Spi_JobStep, seqJobList, Spi_Sequences, Spi_Jobs,
          jobChannel, h0, hf1, SPI_MAX_CHANNEL, SPI_CHANNEL_1, SPI_CHANNEL_2]
      rw [hrun]
      refine ⟨rfl, rfl, rfl, ?_⟩
      intro p hp1 hp2
      have hp3 : p < 2 := by simpa [seqJobList, Spi_Sequences] using hp2
      omega
  · simp [seqJobList, Spi_Sequences] at hk

/-- Witness for C2: sequence 0 with the first exchange not receive-ready
returns `E_NOT_OK`. -/
theorem spi_syncTransmit_fail_fast_witness :
    (Spi_SyncTransmit (fun _ => false) 0
      ⟨[SPI_IDLE, SPI_UNINIT], [SPI_SEQ_PENDING, SPI_SEQ_PENDING],
       [SPI_JOB_PENDING, SPI_JOB_PENDING]⟩).1 = E_NOT_OK :=
  (spi_syncTransmit_fail_fast (fun _ => false) 0 0
    ⟨[SPI_IDLE, SPI_UNINIT], [SPI_SEQ_PENDING, SPI_SEQ_PENDING],
     [SPI_JOB_PENDING, SPI_JOB_PENDING]⟩
    (by decide) (by decide) (by decide) (by decide)
    (fun i hi => absurd hi (by omega)) (Or.inl rfl)).1

/-- Claim C8: each per-job execution step of a sequence run writes exactly
one Job status cell — the current job's, which ends as `SPI_JOB_OK` when
the channel is configured and the exchange reports receive-ready, and as
`SPI_JOB_FAILED` otherwise.  No other Job status cell and no Channel status
cell is changed by the step. -/
theorem spi_jobStep_frame (rxne : Bool) (Sequence currentJob : Nat)
    (s : SpiState) (hWF : s.WF) (hj : currentJob < SPI_MAX_JOB) :
    (Spi_JobStep rxne Sequence currentJob s).2.chStatus = s.chStatus ∧
    (∀ j2, j2 ≠ currentJob →
      (Spi_JobStep rxne Sequence currentJob s).2.job j2 = s.job j2) ∧
    (Spi_JobStep rxne Sequence currentJob s).2.job currentJob =
      (if jobChannel currentJob = SPI_CHANNEL_1 ∨ jobChannel currentJob = SPI_CHANNEL_2 then
        (if rxne then SPI_JOB_OK else SPI_JOB_FAILED)
       else SPI_JOB_FAILED) := by
  obtain ⟨c0, c1, q0, q1, j0, j1, rfl⟩ := hWF.destruct
  have hj2 : currentJob < 2 := hj
  interval_cases currentJob <;> cases rxne <;>
    refine ⟨rfl, ?_, rfl⟩ <;>
    · intro j2 hne
      match j2, hne with
      | 0, hne => first | rfl | exact absurd rfl hne
      | 1, hne => first | rfl | exact absurd rfl hne
      | n + 2, _ => rfl

/-- Witness for C8: the step on job 1 with a clear receive flag leaves the
channel statuses untouched. -/
theorem spi_jobStep_frame_witness :
    (Spi_JobStep false 0 1 initState).2.chStatus = initState.chStatus :=
  (spi_jobStep_frame false 0 1 initState (by decide) (by decide)).1

/-- Writing a non-`SPI_SEQ_CANCELED` value into a sequence-status array
that does not contain `SPI_SEQ_CANCELED` keeps it free of that value. -/
lemma noCancel_set {l : List Spi_SeqResultType} {i : Nat}
    {v : Spi_SeqResultType} (h : SPI_SEQ_CANCELED ∉ l)
    (hv : v ≠ SPI_SEQ_CANCELED) : SPI_SEQ_CANCELED ∉ l.set i v := fun hm =>
  (List.mem_or_eq_of_mem_set hm).elim h (fun e => hv e.symm)

/-- `Spi_JobStep` writes only `SPI_SEQ_FAILED` into the sequence-status
array. -/
lemma noCancel_jobStep {rxne : Bool} {Sequence currentJob : Nat}
    {s : SpiState} (h : SPI_SEQ_CANCELED ∉ s.seqStatus) :
    SPI_SEQ_CANCELED ∉ (Spi_JobStep rxne Sequence currentJob s).2.seqStatus := by
  simp only [Spi_JobStep]
  split_ifs <;>
    first
      | exact h
      | exact noCancel_set h (fun e => nomatch e)

/-- The transmit loop writes only `SPI_SEQ_OK` and (via the step)
`SPI_SEQ_FAILED` into the sequence-status array. -/
lemma noCancel_loop (f : Nat → Bool) (Sequence : Nat) :
    ∀ (jobs : List Nat) (pos : Nat) (s : SpiState),
      SPI_SEQ_CANCELED ∉ s.seqStatus →
      SPI_SEQ_CANCELED ∉ (Spi_TransmitLoop f Sequence jobs pos s).2.seqStatus := by
  intro jobs
  induction jobs with
  | nil =>
      intro pos s h
      exact noCancel_set h (by decide)
  | cons j rest ih =>
      intro pos s h
      simp only [Spi_TransmitLoop]
      by_cases hr : (Spi_JobStep (f pos) Sequence j s).1
      · rw [if_pos hr]
        exact ih (pos + 1) _ (noCancel_jobStep h)
      · rw [if_neg hr]
        exact noCancel_jobStep h

/-- `Spi_SyncTransmit` writes only `SPI_SEQ_PENDING`, `SPI_SEQ_OK` and
`SPI_SEQ_FAILED` into the sequence-status array. -/
lemma noCancel_syncTransmit {f : Nat → Bool} {Sequence : Nat} {s : SpiState}
    (h : SPI_SEQ_CANCELED ∉ s.seqStatus) :
    SPI_SEQ_CANCELED ∉ (Spi_SyncTransmit f Sequence s).2.seqStatus := by
  unfold Spi_SyncTransmit
  split_ifs <;> first
    | exact h
    | exact noCancel_loop f Sequence _ 0 _ (noCancel_set h (by decide))

/-- No implemented public operation writes `SPI_SEQ_CANCELED`. -/
lemma noCancel_apply (op : SpiOp) {s : SpiState}
    (h : SPI_SEQ_CANCELED ∉ s.seqStatus) :
    SPI_SEQ_CANCELED ∉ (op.apply s).seqStatus := by
  cases op with
  | opInit cfg =>
      cases cfg with
      | none => exact h
      | some c =>
          simp only [SpiOp.apply, Spi_Init]
          split_ifs <;> exact h
  | opDeInit h1 h2 =>
      simp only [SpiOp.apply, Spi_DeInit]
      split_ifs <;> exact h
  | opWriteIB ch buf =>
      cases buf with
      | none => exact h
      | some b =>
          simp only [SpiOp.apply, Spi_WriteIB]
          split_ifs <;> exact h
  | opReadIB ch b =>
      simp only [SpiOp.apply, Spi_ReadIB]
      split_ifs <;> exact h
  | opSyncTransmit f q => exact noCancel_syncTransmit h
  | opAsyncTransmit f q => exact noCancel_syncTransmit h
  | opGetStatus => exact h
  | opGetJobResult j => exact h
  | opGetSequenceResult q => exact h
  | opGetVersionInfo => exact h

/-- Claim C7: in every state reachable from the initial state by finite
sequences of calls to the implemented public operations, no sequence status
cell ever holds `SPI_SEQ_CANCELED` (declared-but-unreachable cancellation
state: `Spi_Cancel` is declared in Spi.h but has no implementation). -/
theorem spi_seq_canceled_unreachable (s : SpiState) (h : Reachable s) :
    SPI_SEQ_CANCELED ∉ s.seqStatus := by
  induction h with
  | init => decide
  | step op hprev ih => exact noCancel_apply op ih

/-- Witness for C7 at the initial state. -/
theorem spi_seq_canceled_unreachable_witness :
    SPI_SEQ_CANCELED ∉ initState.seqStatus :=
  spi_seq_canceled_unreachable initState Reachable.init
